import Mathlib

/-!
Shallow embedding of the pyarchy object-modeling toolkit.

The reference sources are the v1.1.8 package (src/pyarchy/data.py,
src/pyarchy/events.py, src/pyarchy/meta.py) together with the v1.1.5
modules that the v1.1.8 package still imports (src/common.py for
TimedObject/NamedObject/StrictlyNamedObject, src/core.py for
ConditionalObject).

Python dynamic values are modelled by a small universe `PyVal` with a
runtime class (`PyType`) and an `isInstanceOf` check; Python exceptions
are modelled by the `Err` kinds of the spec's error taxonomy plus the
two accidental exception kinds the code can actually raise (`NameErr`
for the unbound local `e` in `ItemPool.__init__`, `AttributeErr` for
the missing `strict` / `objects` attributes in `ItemPool.update`).
A Python `set`'s contents are modelled as the list of its elements in
iteration order; `set.add` is a dedupe-append, `set.remove` erases.
Fallible operations return `Except Err`, threading the pool state.
-/

namespace Pyarchy

/-- Error kinds (spec section 7 taxonomy, plus the accidental exceptions
the code raises). -/
inductive Err where
  | TypeErr
  | FrozenElements
  | FrozenPool
  | NotFound
  | EmptyPool
  | UnknownEvent
  | NameErr
  | AttributeErr
deriving DecidableEq, Repr

/-- Runtime classes relevant to the pools: plain `Object` and `Event`. -/
inductive PyType where
  | objectT
  | eventT
deriving DecidableEq, Repr

/-- An Event value (src/pyarchy/events.py `Event`): the fields a pyarchy
Event observably carries — its creation timestamp (from TimedObject),
its `permitted` flag, and its name. Timestamps are modelled as integers;
they are used only for ordering. -/
structure Event where
  timestamp : Int
  permitted : Bool
  name : String
deriving DecidableEq, Repr

/-- A dynamic Python value: either a plain Object (distinguished by an
identity token) or an Event. -/
inductive PyVal where
  | obj (id : Nat)
  | ev (e : Event)
deriving DecidableEq, Repr

/-- The runtime class of a value. -/
def PyVal.classOf : PyVal → PyType
  | .obj _ => .objectT
  | .ev _ => .eventT

/-- `isinstance(v, t)`: first argument is the value's class, second the
target class. `Event` is a subclass of `Object`. -/
def isInstanceOf : PyType → PyType → Bool
  | _, .objectT => true
  | .eventT, .eventT => true
  | .objectT, .eventT => false

/-- Python `set.add`: insert unless already present. The list records
the set's iteration order. -/
def setAdd (l : List PyVal) (x : PyVal) : List PyVal :=
  if x ∈ l then l else l ++ [x]

/-- ItemPool (src/pyarchy/data.py lines 72-243): a mutation-guarded
collection. `readonly` is the pool-frozen flag, `protected_` the
elements-frozen flag (`protected` is the source name; Lean reserves it),
`object_type` the declared element class, `objects` the underlying set
in iteration order (`__iter__` returns `iter(list(self.__objects))`). -/
structure ItemPool where
  readonly : Bool
  protected_ : Bool
  object_type : PyType
  objects : List PyVal
deriving DecidableEq, Repr

/-- `ItemPool.__init__(self, *objs)` (data.py lines 79-82): sets the
flags false and builds `set(o for o in objs if isinstance(e, self.object_type))`.
The comprehension's filter names `e`, which is unbound, so the first
element drawn from a non-empty `objs` raises `NameError`; only the
zero-argument construction succeeds, with an empty set. -/
def initItemPool (t : PyType) (objs : List PyVal) : Except Err ItemPool :=
  match objs with
  | [] => .ok { readonly := false, protected_ := false, object_type := t, objects := [] }
  | _ :: _ => .error .NameErr

/-- `ItemPool.add` (data.py lines 185-193): the `@protect_objects`
wrapper raises if `protected`; then a wrong-class element raises
`TypeError`; otherwise the element is inserted into the set. -/
def ItemPool.add (p : ItemPool) (obj : PyVal) : Except Err ItemPool :=
  if p.protected_ then .error .FrozenElements
  else if ¬ isInstanceOf obj.classOf p.object_type then .error .TypeErr
  else .ok { p with objects := setAdd p.objects obj }

/-- `ItemPool.remove` (data.py lines 205-212): no freeze guard; a
wrong-class element raises `TypeError`; `set.remove` raises `KeyError`
when the element is absent, else removes it. -/
def ItemPool.remove (p : ItemPool) (obj : PyVal) : Except Err ItemPool :=
  if ¬ isInstanceOf obj.classOf p.object_type then .error .TypeErr
  else if obj ∈ p.objects then .ok { p with objects := p.objects.erase obj }
  else .error .NotFound

/-- `ItemPool.update` (data.py lines 195-203): the `@protect_pool`
wrapper raises if `readonly`; the body then evaluates `self.strict`,
an attribute no class in the hierarchy defines, so every call that
passes the freeze guard raises `AttributeError` before touching the
set (the union on line 203 would also fail: pools have no `objects`
attribute, the set being name-mangled private). -/
def ItemPool.update (p : ItemPool) (pools : List ItemPool) : Except Err ItemPool :=
  if p.readonly then .error .FrozenPool
  else
    match pools with
    | _ => .error .AttributeErr

/-- `ItemPool.disjoint` (data.py lines 214-219): the `@protect_pool`
wrapper raises if `readonly`; otherwise `difference_update` drops every
element also present in the other pool. -/
def ItemPool.disjoint (p : ItemPool) (other : ItemPool) : Except Err ItemPool :=
  if p.readonly then .error .FrozenPool
  else .ok { p with objects := p.objects.filter (fun o => ¬ o ∈ other.objects) }

/-- `ItemPool.filter` (data.py lines 177-183): no freeze guard; builds
`type(self)(*filter(func, self))`, i.e. constructs a fresh pool of the
same class from the elements satisfying `func` — which goes through the
broken `__init__` comprehension, so it succeeds (with a fresh empty
pool) only when no element satisfies `func`. The source pool is never
touched. -/
def ItemPool.filter (p : ItemPool) (func : PyVal → Bool) : Except Err ItemPool :=
  initItemPool p.object_type (p.objects.filter func)

/-- The removal loop of `ItemPool.clear` (data.py line 228-229):
`self.remove(obj)` for each object of a filtered pool. -/
def removeAll (p : ItemPool) : List PyVal → Except Err ItemPool
  | [] => .ok p
  | x :: xs =>
    match p.remove x with
    | .ok p' => removeAll p' xs
    | .error err => .error err

/-- `ItemPool.clear` (data.py lines 221-231): the `@protect_pool`
wrapper raises if `readonly`; with a callable argument it removes every
element of `self.filter(func)`, otherwise it empties the set. -/
def ItemPool.clear (p : ItemPool) (func : Option (PyVal → Bool)) : Except Err ItemPool :=
  if p.readonly then .error .FrozenPool
  else
    match func with
    | some f =>
      match p.filter f with
      | .ok sub => removeAll p sub.objects
      | .error err => .error err
    | none => .ok { p with objects := [] }

/-- `ItemPool.pop` (data.py lines 233-243): the `@protect_pool` wrapper
raises if `readonly`; an empty pool raises `IndexError`; otherwise
`self[-1]` takes the last element of `list(self)` (the iteration
order), `self.remove` drops it from the set, and it is returned. -/
def ItemPool.pop (p : ItemPool) : Except Err (PyVal × ItemPool) :=
  if p.readonly then .error .FrozenPool
  else
    match p.objects.getLast? with
    | some obj =>
      match p.remove obj with
      | .ok p' => .ok (obj, p')
      | .error err => .error err
    | none => .error .EmptyPool

/-- A Python return value, as far as the gate's observable behavior is
concerned: the gate's skip branch returns `None` (`PyResult.none`), a
payload may return `None`, a string, or an integer. -/
inductive PyResult where
  | none
  | str (s : String)
  | int (n : Int)
deriving DecidableEq, Repr

/-- Condition-gated execution of `Event.execute` (src/pyarchy/meta.py
`MetaConditional.status_checker` lines 41-53, applied to `execute` by
`MetaConditional.__new__`): the wrapper calls the stored condition —
for an Event, the `lambda: self.permitted` installed by
`Event.__init__` — and runs the wrapped payload only when it is true,
returning the payload's result; otherwise it returns `None` without
running the payload. A payload may read and mutate the event, so it is
modelled as `Event → Event × PyResult`; the skip branch leaves the
event untouched. -/
def Event.executeGated (e : Event) (payload : Event → Event × PyResult) :
    Event × PyResult :=
  if e.permitted then payload e else (e, PyResult.none)

/-- The `permitted` property setter (src/pyarchy/events.py lines 55-58):
a plain property, not routed through the gate; it stores the boolean. -/
def Event.setPermitted (e : Event) (mode : Bool) : Event :=
  { e with permitted := mode }

/-- The kinds of attribute a class body can hold, as far as
`MetaConditional.__new__` distinguishes them: a plain function
(`types.FunctionType`), a property object, a classmethod object, or
anything else. Only plain functions are `isinstance(v, types.FunctionType)`. -/
inductive AttrKind where
  | functionAttr
  | propertyAttr
  | classmethodAttr
  | otherAttr
deriving DecidableEq, Repr

/-- Python's `k.startswith('__')`: the attribute name begins with two
underscores (name-mangled private attributes and dunder methods). -/
def startsDunder (k : String) : Bool :=
  match k.toList with
  | '_' :: '_' :: _ => true
  | _ => false

/-- The wrapping decision of `MetaConditional.__new__` (src/pyarchy/meta.py
lines 55-69): an attribute named `_condition` is recorded as the
condition and never wrapped; otherwise an attribute is wrapped with
`status_checker` exactly when its name does not start with `__` and its
value is a plain function. Properties, classmethods and dunder methods
are left untouched. -/
def wrapsAttr (k : String) (v : AttrKind) : Bool :=
  if k = "_condition" then false
  else if (¬ startsDunder k) ∧ v = AttrKind.functionAttr then true
  else false

/-- EventPool (src/pyarchy/events.py lines 61-84): an ItemPool whose
`object_type` is `Event`, plus the fixed name from
`StrictlyNamedObject`. The underlying set is a list of Events in set
iteration order. -/
structure EventPool where
  name : String
  readonly : Bool
  protected_ : Bool
  events : List Event
deriving DecidableEq, Repr

/-- `NamedObject.check_name` (src/common.py lines 68-74): `name.isalnum()` —
true exactly when the string is non-empty and every character is
alphanumeric. -/
def check_name (name : String) : Bool :=
  !name.toList.isEmpty && name.toList.all Char.isAlphanum

/-- `EventPool.__init__(self, name, *events)` (src/pyarchy/events.py
lines 65-70): first validates that every pre-seeded value is an
`Event` instance, raising `TypeError` otherwise; then calls
`ItemPool.__init__(self, *events)`, whose comprehension raises
`NameError` whenever `events` is non-empty; finally
`StrictlyNamedObject.__init__(self, name)` validates the name via
`check_name`, raising `TypeError` when it fails. -/
def initEventPool (name : String) (events : List PyVal) : Except Err EventPool :=
  if events.any (fun e => ¬ isInstanceOf e.classOf PyType.eventT) then .error .TypeErr
  else
    match events with
    | [] =>
      if check_name name then
        .ok { name := name, readonly := false, protected_ := false, events := [] }
      else .error .TypeErr
    | _ :: _ => .error .NameErr

/-- Python `set.add` on the EventPool's underlying set of Events. -/
def eventSetAdd (l : List Event) (x : Event) : List Event :=
  if x ∈ l then l else l ++ [x]

/-- `ItemPool.add` as inherited by EventPool: the element is typed
`Event`, so the `isinstance(obj, Event)` check always passes; the
`@protect_objects` wrapper still raises when `protected`. -/
def EventPool.add (p : EventPool) (e : Event) : Except Err EventPool :=
  if p.protected_ then .error .FrozenElements
  else .ok { p with events := eventSetAdd p.events e }

/-- `ItemPool.remove` as inherited by EventPool: type check passes for
an `Event`; `set.remove` raises `KeyError` when absent. -/
def EventPool.remove (p : EventPool) (e : Event) : Except Err EventPool :=
  if e ∈ p.events then .ok { p with events := p.events.erase e }
  else .error .NotFound

/-- The comparison `sorted` consults on Events: `TimedObject.__lt__`
(src/common.py lines 27-32) compares creation timestamps. Sorting with
`reverse=True` orders the list so that each later element is not
greater than any earlier one; as a Bool relation for `mergeSort`,
`eventLe a b` states that `a` may precede `b` in the descending
result, i.e. `b.timestamp ≤ a.timestamp`. -/
def eventLe (a b : Event) : Bool :=
  decide (b.timestamp ≤ a.timestamp)

/-- `EventPool.__iter__` (src/pyarchy/events.py lines 72-79): yields
`sorted(ItemPool.__iter__(self), reverse=True)` — the pool's events in
descending creation-timestamp order (Python's sort is stable, as is
`mergeSort`). -/
def EventPool.iterOrder (p : EventPool) : List Event :=
  p.events.mergeSort eventLe

/-- `ItemPool.pop` as inherited by EventPool: the `self[-1]` on line
239 goes through `ItemPool.__getitem__`, i.e. `list(self)[-1]`, and
`list(self)` uses the overridden `EventPool.__iter__` — so the popped
element is the last element of the descending-timestamp iteration
order, the oldest event. -/
def EventPool.pop (p : EventPool) : Except Err (Event × EventPool) :=
  if p.readonly then .error .FrozenPool
  else
    match p.iterOrder.getLast? with
    | some obj =>
      match p.remove obj with
      | .ok p' => .ok (obj, p')
      | .error err => .error err
    | none => .error .EmptyPool

/-- `EventPool.create` (src/pyarchy/events.py lines 81-84): looks up
`Event._handlers[name]` — an unregistered name raises `KeyError` —
then calls the registered constructor on the arguments, inserts the
result via the inherited `add`, and returns it. The process-wide
`_handlers` table is passed explicitly. -/
def EventPool.create (handlers : String → Option (List PyResult → Event))
    (p : EventPool) (name : String) (args : List PyResult) :
    Except Err (Event × EventPool) :=
  match handlers name with
  | Option.none => .error .UnknownEvent
  | Option.some ctor =>
    match p.add (ctor args) with
    | .ok p' => .ok (ctor args, p')
    | .error err => .error err

/-- Pool well-formedness: every element is an instance of the pool's
declared element class. Every pool reachable through the API satisfies
this: `add` type-checks each insertion and `__init__` cannot seed a
non-empty pool. -/
def ItemPool.WF (p : ItemPool) : Prop :=
  ∀ x ∈ p.objects, isInstanceOf x.classOf p.object_type = true

instance (p : ItemPool) : Decidable p.WF :=
  List.decidableBAll _ p.objects

/-- A sample elements-frozen pool holding one plain object. -/
def protPool : ItemPool :=
  { readonly := false, protected_ := true, object_type := PyType.objectT,
    objects := [PyVal.obj 0] }

/-- A sample read-only pool holding one plain object. -/
def roPool : ItemPool :=
  { readonly := true, protected_ := false, object_type := PyType.objectT,
    objects := [PyVal.obj 0] }

/-- A sample unfrozen pool holding two plain objects. -/
def twoPool : ItemPool :=
  { readonly := false, protected_ := false, object_type := PyType.objectT,
    objects := [PyVal.obj 0, PyVal.obj 1] }

/-- A sample unfrozen pool holding one plain object. -/
def onePool : ItemPool :=
  { readonly := false, protected_ := false, object_type := PyType.objectT,
    objects := [PyVal.obj 0] }

/-- A second sample unfrozen pool of the same element type. -/
def otherPool : ItemPool :=
  { readonly := false, protected_ := false, object_type := PyType.objectT,
    objects := [PyVal.obj 1] }

/-- C3: on every pool with elementsFrozen (`protected`) true, `add`
always fails with FrozenElementsKind, for any argument; `remove` of a
correctly-typed element present in the pool still succeeds and removes
it — removal is never gated by the elementsFrozen flag. -/
theorem C3_frozen_elements (p : ItemPool) (h : p.protected_ = true) :
    (∀ obj, p.add obj = .error .FrozenElements) ∧
    (∀ obj, isInstanceOf obj.classOf p.object_type = true → obj ∈ p.objects →
      p.remove obj = .ok { p with objects := p.objects.erase obj }) := by
  constructor
  · intro obj
    simp [ItemPool.add, h]
  · intro obj hty hmem
    simp [ItemPool.remove, hty, hmem]

/-- Witness for C3 on a concrete elements-frozen pool. -/
theorem C3_frozen_elements_witness :
    protPool.add (PyVal.obj 1) = .error .FrozenElements ∧
    protPool.remove (PyVal.obj 0) =
      .ok { protPool with objects := protPool.objects.erase (PyVal.obj 0) } :=
  ⟨(C3_frozen_elements protPool rfl).1 (PyVal.obj 1),
   (C3_frozen_elements protPool rfl).2 (PyVal.obj 0) (by decide) (by decide)⟩

/-- C4: on every pool with poolFrozen (`readonly`) true, `update`,
`disjoint`, `clear` and `pop` all fail with FrozenPoolKind, while `add`
and `remove` produce exactly the outcome they produce on the same pool
with poolFrozen false (the flag is merely carried along on success). -/
theorem C4_frozen_pool (p : ItemPool) (h : p.readonly = true) :
    (∀ pools, p.update pools = .error .FrozenPool) ∧
    (∀ other, p.disjoint other = .error .FrozenPool) ∧
    (∀ func, p.clear func = .error .FrozenPool) ∧
    (p.pop = .error .FrozenPool) ∧
    (∀ obj, p.add obj =
      (ItemPool.add { p with readonly := false } obj).map
        (fun q => { q with readonly := true })) ∧
    (∀ obj, p.remove obj =
      (ItemPool.remove { p with readonly := false } obj).map
        (fun q => { q with readonly := true })) := by
  obtain ⟨r, pr, t, os⟩ := p
  simp only at h
  subst h
  refine ⟨?_, ?_, ?_, ?_, ?_, ?_⟩
  · intro pools
    simp [ItemPool.update]
  · intro other
    simp [ItemPool.disjoint]
  · intro func
    simp [ItemPool.clear]
  · simp [ItemPool.pop]
  · intro obj
    by_cases hp : pr <;>
      by_cases hi : isInstanceOf obj.classOf t = true <;>
        simp [ItemPool.add, hp, hi, Except.map]
  · intro obj
    by_cases hi : isInstanceOf obj.classOf t = true <;>
      by_cases hm : obj ∈ os <;>
        simp [ItemPool.remove, hi, hm, Except.map]

/-- Witness for C4 on a concrete read-only pool. -/
theorem C4_frozen_pool_witness :
    roPool.update [otherPool] = .error .FrozenPool ∧
    roPool.disjoint otherPool = .error .FrozenPool ∧
    roPool.clear Option.none = .error .FrozenPool ∧
    roPool.pop = .error .FrozenPool ∧
    roPool.add (PyVal.obj 1) =
      (ItemPool.add { roPool with readonly := false } (PyVal.obj 1)).map
        (fun q => { q with readonly := true }) ∧
    roPool.remove (PyVal.obj 0) =
      (ItemPool.remove { roPool with readonly := false } (PyVal.obj 0)).map
        (fun q => { q with readonly := true }) :=
  ⟨(C4_frozen_pool roPool rfl).1 [otherPool],
   (C4_frozen_pool roPool rfl).2.1 otherPool,
   (C4_frozen_pool roPool rfl).2.2.1 Option.none,
   (C4_frozen_pool roPool rfl).2.2.2.1,
   (C4_frozen_pool roPool rfl).2.2.2.2.1 (PyVal.obj 1),
   (C4_frozen_pool roPool rfl).2.2.2.2.2 (PyVal.obj 0)⟩

/-- C5: on every well-formed pool that is not poolFrozen, `pop` on an
empty pool fails with EmptyPoolKind; `pop` on a non-empty pool removes
exactly one element (the length drops by one) and returns it, and that
element is the last element of the pool's iteration order. -/
theorem C5_pop (p : ItemPool) (hr : p.readonly = false) (hwf : p.WF) :
    (p.objects = [] → p.pop = .error .EmptyPool) ∧
    (∀ hne : p.objects ≠ [],
      p.pop = .ok (p.objects.getLast hne,
        { p with objects := p.objects.erase (p.objects.getLast hne) }) ∧
      (p.objects.erase (p.objects.getLast hne)).length + 1 = p.objects.length) := by
  constructor
  · intro hnil
    simp [ItemPool.pop, hr, hnil]
  · intro hne
    have hg : p.objects.getLast? = some (p.objects.getLast hne) :=
      List.getLast?_eq_getLast _ hne
    have hmem : p.objects.getLast hne ∈ p.objects := List.getLast_mem hne
    have hty := hwf _ hmem
    refine ⟨?_, ?_⟩
    · simp [ItemPool.pop, hr, hg, ItemPool.remove, hty, hmem]
    · have h1 := List.length_erase_of_mem hmem
      have h2 : 0 < p.objects.length := List.length_pos.mpr hne
      omega

/-- Witness for C5 on a concrete two-element pool. -/
theorem C5_pop_witness :
    twoPool.pop = .ok (twoPool.objects.getLast (by decide),
      { twoPool with
        objects := twoPool.objects.erase (twoPool.objects.getLast (by decide)) }) ∧
    (twoPool.objects.erase (twoPool.objects.getLast (by decide))).length + 1 =
      twoPool.objects.length :=
  (C5_pop twoPool rfl (by decide)).2 (by decide)

/-- C7: the claim that `filter` returns a new pool holding the passing
elements fails on the code: `type(self)(*filter(func, self))` routes the
passing elements through `ItemPool.__init__`, whose comprehension names
the unbound variable `e`, so any call where at least one element passes
raises NameError. Only a filter nothing passes returns a (fresh, empty)
pool; the source pool is indeed left untouched in either case. -/
theorem C7_filter_name_error :
    onePool.filter (fun _ => true) = .error .NameErr ∧
    onePool.filter (fun _ => false) =
      .ok { readonly := false, protected_ := false, object_type := PyType.objectT,
            objects := [] } := by
  constructor <;> rfl

/-- C8: the claim that `update` unions the other pools' elements fails
on the code: after the freeze guard the body evaluates `self.strict`,
an attribute that does not exist, so every `update` call on a
non-read-only pool raises AttributeError — here on two same-typed,
unfrozen pools. -/
theorem C8_update_attribute_error :
    onePool.update [otherPool] = .error .AttributeErr := rfl

/-- C9: zero-argument construction yields an empty pool, and the
EventPool constructor does type-validate pre-seeded values; but seeding
with a valid Event fails too — `ItemPool.__init__`'s comprehension
raises NameError on its unbound variable `e` for any non-empty
argument list — contradicting the claim that construction with
elements of the declared type yields a pool containing them. -/
theorem C9_init_name_error :
    initItemPool PyType.objectT [] =
      .ok { readonly := false, protected_ := false, object_type := PyType.objectT,
            objects := [] } ∧
    initEventPool "pool1" [] =
      .ok { name := "pool1", readonly := false, protected_ := false, events := [] } ∧
    initEventPool "pool1" [PyVal.obj 7] = .error .TypeErr ∧
    initEventPool "pool1"
      [PyVal.ev { timestamp := 1, permitted := true, name := "e1" }] =
      .error .NameErr ∧
    initItemPool PyType.objectT [PyVal.obj 0] = .error .NameErr := by
  refine ⟨rfl, ?_, ?_, ?_, rfl⟩ <;> rfl

/-- A sample blocked event. -/
def evBlocked : Event := { timestamp := 0, permitted := false, name := "ping" }

/-- A sample permitted event. -/
def evAllowed : Event := { timestamp := 0, permitted := true, name := "ping" }

/-- C2 counterexample: the skip branch of the gate returns `None`,
which is exactly what a payload that executed and returned nothing
produces — the "skipped" marker is not distinguishable from "executed
and returned nothing". Here the same do-nothing payload gives the same
result through a blocked event (payload skipped) as through a
permitted event (payload run). -/
theorem C2_skip_not_distinguishable :
    (evBlocked.executeGated (fun e => (e, PyResult.none))).2 =
    (evAllowed.executeGated (fun e => (e, PyResult.none))).2 := rfl

/-- C2 amended: with `permitted` false, `execute()` does not run the
payload and returns `None` with the event unchanged (no side effect) —
but `None` is also what a payload that runs and returns nothing yields,
so the skip outcome is not distinguishable from it; with `permitted`
true, `execute()` runs the payload and returns its result. -/
theorem C2_gate (e : Event) (payload : Event → Event × PyResult) :
    (e.permitted = false → e.executeGated payload = (e, PyResult.none)) ∧
    (e.permitted = true → e.executeGated payload = payload e) := by
  constructor <;> intro h <;> simp [Event.executeGated, h]

/-- Witness for C2 on concrete events and a payload returning "pong". -/
theorem C2_gate_witness :
    evBlocked.executeGated (fun e => (e, PyResult.str "pong")) =
      (evBlocked, PyResult.none) ∧
    evAllowed.executeGated (fun e => (e, PyResult.str "pong")) =
      (evAllowed, PyResult.str "pong") :=
  ⟨(C2_gate evBlocked (fun e => (e, PyResult.str "pong"))).1 rfl,
   (C2_gate evAllowed (fun e => (e, PyResult.str "pong"))).2 rfl⟩

/-- The inserted element is a member of the set after `set.add`. -/
theorem mem_eventSetAdd_self (l : List Event) (x : Event) : x ∈ eventSetAdd l x := by
  unfold eventSetAdd
  by_cases h : x ∈ l <;> simp [h]

/-- A sample handler table registering only the name "Ping". -/
def handlers0 : String → Option (List PyResult → Event) :=
  fun n => if n = "Ping" then Option.some (fun _ => evAllowed) else Option.none

/-- A sample empty, unfrozen EventPool named "net". -/
def netPool : EventPool :=
  { name := "net", readonly := false, protected_ := false, events := [] }

/-- C6: on every non-elements-frozen EventPool, `create(name, args)`
fails with UnknownEventKind when `name` is not in the constructor
table; when it is registered, `create` calls the registered constructor
on `args`, inserts the resulting Event via `add`, and returns exactly
that Event, which is then a member of the pool. -/
theorem C6_create (handlers : String → Option (List PyResult → Event))
    (p : EventPool) (name : String) (args : List PyResult)
    (hp : p.protected_ = false) :
    (handlers name = Option.none →
      EventPool.create handlers p name args = .error .UnknownEvent) ∧
    (∀ ctor, handlers name = Option.some ctor →
      EventPool.create handlers p name args =
        .ok (ctor args, { p with events := eventSetAdd p.events (ctor args) }) ∧
      ctor args ∈ eventSetAdd p.events (ctor args)) := by
  constructor
  · intro hnone
    simp [EventPool.create, hnone]
  · intro ctor hsome
    refine ⟨?_, mem_eventSetAdd_self _ _⟩
    simp [EventPool.create, hsome, EventPool.add, hp]

/-- Witness for C6: an unregistered name fails, the registered "Ping"
constructor's event is inserted and returned. -/
theorem C6_create_witness :
    (EventPool.create handlers0 netPool "NoSuchEvent" [] = .error .UnknownEvent) ∧
    (EventPool.create handlers0 netPool "Ping" [] =
      .ok (evAllowed, { netPool with events := eventSetAdd netPool.events evAllowed }) ∧
      evAllowed ∈ eventSetAdd netPool.events evAllowed) :=
  ⟨(C6_create handlers0 netPool "NoSuchEvent" [] rfl).1 rfl,
   (C6_create handlers0 netPool "Ping" [] rfl).2 (fun _ => evAllowed) rfl⟩

/-- C10: the metaclass wraps an attribute only when it is a plain
function whose name is not dunder (and is not the `_condition` slot);
properties are never wrapped (so property reads and writes are never
suppressed), dunder attributes are never wrapped, and `execute` is
wrapped. Consequently the `permitted` property setter always works:
setting a blocked event's `permitted` back to true re-enables it, and
its gated `execute` then runs the payload. -/
theorem C10_gate_scope (k : String) (v : AttrKind) (e : Event)
    (payload : Event → Event × PyResult) :
    (wrapsAttr k v = true → v = AttrKind.functionAttr ∧ startsDunder k = false) ∧
    (wrapsAttr k AttrKind.propertyAttr = false) ∧
    (startsDunder k = true → wrapsAttr k v = false) ∧
    (wrapsAttr "execute" AttrKind.functionAttr = true) ∧
    ((e.setPermitted true).permitted = true) ∧
    ((e.setPermitted true).executeGated payload = payload (e.setPermitted true)) := by
  refine ⟨?_, ?_, ?_, ?_, rfl, ?_⟩
  · intro hw
    unfold wrapsAttr at hw
    by_cases hc : k = "_condition"
    · simp [hc] at hw
    · by_cases hs : startsDunder k = true
      · simp [hc, hs] at hw
      · by_cases hv : v = AttrKind.functionAttr
        · exact ⟨hv, by simpa using hs⟩
        · simp [hc, hs, hv] at hw
  · unfold wrapsAttr
    by_cases hc : k = "_condition" <;> simp [hc]
  · intro hs
    unfold wrapsAttr
    by_cases hc : k = "_condition" <;> simp [hc, hs]
  · rfl
  · simp [Event.setPermitted, Event.executeGated]

/-- Witness for C10: `__init__` is not wrapped, a blocked event set
back to permitted runs its payload again. -/
theorem C10_gate_scope_witness :
    wrapsAttr "__init__" AttrKind.functionAttr = false ∧
    (evBlocked.setPermitted true).executeGated (fun e => (e, PyResult.str "pong")) =
      (fun e => (e, PyResult.str "pong")) (evBlocked.setPermitted true) :=
  ⟨(C10_gate_scope "__init__" AttrKind.functionAttr evBlocked
      (fun e => (e, PyResult.str "pong"))).2.2.1 rfl,
   (C10_gate_scope "__init__" AttrKind.functionAttr evBlocked
      (fun e => (e, PyResult.str "pong"))).2.2.2.2.2⟩

/-- `eventLe` is transitive. -/
theorem eventLe_trans (a b c : Event) (hab : eventLe a b = true)
    (hbc : eventLe b c = true) : eventLe a c = true := by
  simp only [eventLe, decide_eq_true_eq] at *
  omega

/-- `eventLe` is total. -/
theorem eventLe_total (a b : Event) : (eventLe a b || eventLe b a) = true := by
  simp only [eventLe, Bool.or_eq_true, decide_eq_true_eq]
  omega

/-- In a list sorted descending by timestamp, the last element has the
minimal timestamp. -/
theorem getLast_min_of_sorted :
    ∀ (l : List Event) (h : l ≠ []),
      l.Pairwise (fun a b => eventLe a b = true) →
      ∀ x ∈ l, (l.getLast h).timestamp ≤ x.timestamp := by
  intro l
  induction l with
  | nil => intro h; exact absurd rfl h
  | cons a t ih =>
    intro h hp x hx
    rcases List.pairwise_cons.mp hp with ⟨ha, ht⟩
    cases t with
    | nil =>
      rcases List.mem_singleton.mp hx with rfl
      exact le_refl _
    | cons b t' =>
      rw [List.getLast_cons (List.cons_ne_nil b t')]
      rcases List.mem_cons.mp hx with rfl | hx'
      · have hmem : (b :: t').getLast (List.cons_ne_nil b t') ∈ b :: t' :=
          List.getLast_mem _
        have := ha _ hmem
        simpa [eventLe, decide_eq_true_eq] using this
      · exact ih (List.cons_ne_nil b t') ht x hx'

/-- C1: on every EventPool whose events have pairwise-distinct creation
timestamps, the iteration order is strictly descending in timestamp
(newest first); and on such a non-empty, non-read-only pool, `pop`
removes and returns the event with the oldest (minimal) timestamp. -/
theorem C1_event_ordering (p : EventPool)
    (hd : p.events.Pairwise (fun a b => a.timestamp ≠ b.timestamp)) :
    p.iterOrder.Pairwise (fun a b => b.timestamp < a.timestamp) ∧
    (p.readonly = false → p.events ≠ [] →
      ∃ e p', p.pop = .ok (e, p') ∧ e ∈ p.events ∧
        (∀ x ∈ p.events, e.timestamp ≤ x.timestamp) ∧
        p'.events = p.events.erase e) := by
  have hperm : p.iterOrder.Perm p.events := List.mergeSort_perm p.events eventLe
  have hsorted : p.iterOrder.Pairwise (fun a b => eventLe a b = true) :=
    List.sorted_mergeSort eventLe_trans eventLe_total p.events
  have hiter_ne : p.iterOrder.Pairwise (fun a b => a.timestamp ≠ b.timestamp) :=
    (List.Perm.pairwise_iff (fun hxy => Ne.symm hxy) hperm).mpr hd
  have hstrict : p.iterOrder.Pairwise (fun a b => b.timestamp < a.timestamp) := by
    have hand := hsorted.and hiter_ne
    exact hand.imp (fun hab =>
      lt_of_le_of_ne (by simpa [eventLe, decide_eq_true_eq] using hab.1)
        (Ne.symm hab.2))
  refine ⟨hstrict, ?_⟩
  intro hr hne
  have hlen : p.iterOrder.length = p.events.length := hperm.length_eq
  have hne2 : p.iterOrder ≠ [] := by
    intro h0
    rw [h0] at hlen
    exact hne (List.length_eq_zero.mp hlen.symm)
  have hglast : p.iterOrder.getLast? = some (p.iterOrder.getLast hne2) :=
    List.getLast?_eq_getLast _ hne2
  have hgmem : p.iterOrder.getLast hne2 ∈ p.iterOrder := List.getLast_mem hne2
  have hgmem' : p.iterOrder.getLast hne2 ∈ p.events := hperm.mem_iff.mp hgmem
  refine ⟨p.iterOrder.getLast hne2,
    { p with events := p.events.erase (p.iterOrder.getLast hne2) }, ?_, hgmem', ?_, rfl⟩
  · simp [EventPool.pop, hr, hglast, EventPool.remove, hgmem']
  · intro x hx
    exact getLast_min_of_sorted _ hne2 hsorted x (hperm.mem_iff.mpr hx)

/-- A sample pool of three events created at distinct instants 1 < 2 < 3,
stored out of order. -/
def pool3 : EventPool :=
  { name := "net", readonly := false, protected_ := false,
    events := [ { timestamp := 2, permitted := true, name := "b" },
                { timestamp := 1, permitted := true, name := "a" },
                { timestamp := 3, permitted := true, name := "c" } ] }

/-- Witness for C1 on the concrete three-event pool. -/
theorem C1_event_ordering_witness :
    pool3.iterOrder.Pairwise (fun a b => b.timestamp < a.timestamp) ∧
    (∃ e p', pool3.pop = .ok (e, p') ∧ e ∈ pool3.events ∧
      (∀ x ∈ pool3.events, e.timestamp ≤ x.timestamp) ∧
      p'.events = pool3.events.erase e) :=
  ⟨(C1_event_ordering pool3 (by decide)).1,
   (C1_event_ordering pool3 (by decide)).2 rfl (by decide)⟩

end Pyarchy
